import Mathlib

set_option maxHeartbeats 1000000

/-!
Verification of the IT-Ticket conversational bot's intent-classification,
routing and escalation layer (backend/services/fast_intent_classifier.py,
backend/agents/supervisor_agent.py, backend/agents/ticket_agent.py,
backend/agents/base_agent.py).

Python strings are modelled as lists of Unicode code points (`Nat`);
the ASCII fragment, which is all the modelled code manipulates, is exact.
Python `re.search` with `re.IGNORECASE` (the flag every modelled call site
passes) is modelled by a backtracking matcher over a regex AST that mirrors
the constructs appearing in the source patterns: literals, character
classes, alternation (leftmost priority), greedy star/plus/option, word
boundaries, end anchor and one capture group, searching positions left to
right exactly as `re.search` does.  Floats are modelled as rationals; the
confidence constants 0.6, 0.7, 0.85, 0.9, 0.95 are exact binary-independent
literals in both worlds' comparisons as used here.
-/

namespace ITBot

/-- A Python string: a list of its characters' Unicode code points. -/
abbrev Str := List Nat

/-- Convert a Lean string literal to the Python-string model. -/
def str (s : String) : Str := s.data.map Char.toNat

/-- ASCII whitespace, as recognised by Python `str.strip`/`\s` (ASCII fragment). -/
def isSpaceB (c : Nat) : Bool := c == 32 || (9 ≤ c && c ≤ 13)

/-- ASCII digit, Python `str.isdigit` / regex `\d` (ASCII fragment). -/
def isDigitB (c : Nat) : Bool := 48 ≤ c && c ≤ 57

/-- Regex word character `\w` = `[a-zA-Z0-9_]`. -/
def isWordB (c : Nat) : Bool :=
  (48 ≤ c && c ≤ 57) || (65 ≤ c && c ≤ 90) || (97 ≤ c && c ≤ 122) || c == 95

/-- ASCII lower-case letter. -/
def isLowerB (c : Nat) : Bool := 97 ≤ c && c ≤ 122

/-- ASCII upper-case letter. -/
def isUpperB (c : Nat) : Bool := 65 ≤ c && c ≤ 90

/-- Python `str.upper` on one character (ASCII fragment). -/
def toUpperC (c : Nat) : Nat := if isLowerB c then c - 32 else c

/-- Python `str.lower` on one character (ASCII fragment). -/
def toLowerC (c : Nat) : Nat := if isUpperB c then c + 32 else c

/-- Python `str.upper`. -/
def toUpperL (l : Str) : Str := l.map toUpperC

/-- Python `str.lower`. -/
def toLowerL (l : Str) : Str := l.map toLowerC

/-- Drop leading whitespace (Python `str.lstrip`). -/
def lstripW (l : Str) : Str := l.dropWhile isSpaceB

/-- Python `str.strip`: drop leading and trailing whitespace. -/
def stripW (l : Str) : Str := ((lstripW ((lstripW l).reverse)).reverse)

/-- Python `str.startswith`: `startsW n h` holds when `n` is an initial
segment of `h`. -/
def startsW : Str → Str → Bool
  | [], _ => true
  | _ :: _, [] => false
  | a :: as, b :: bs => a == b && startsW as bs

/-- Python `str.endswith`. -/
def endsW (n h : Str) : Bool := startsW n.reverse h.reverse

/-- Python substring test `n in h`. -/
def containsSub (n : Str) : Str → Bool
  | [] => n.isEmpty
  | c :: rest => startsW n (c :: rest) || containsSub n rest

/-- Python `str.zfill n` for the digit strings used here: left-pad with
zeros to length `n`. -/
def zfill (n : Nat) (s : Str) : Str := List.replicate (n - s.length) 48 ++ s

/-- Python slice `l[-n:]`: the last `n` elements. -/
def lastN (n : Nat) (l : List α) : List α := l.drop (l.length - n)

/-- Python `str.isdigit` (ASCII fragment): nonempty and all digits. -/
def isDigits (l : Str) : Bool := !l.isEmpty && l.all isDigitB

/-- Helper for `digitRuns`: `acc` is the current (reversed) run of digits. -/
def digitRunsAux : Str → Str → List Str
  | acc, [] => if acc.isEmpty then [] else [acc.reverse]
  | acc, c :: rest =>
    if isDigitB c then digitRunsAux (c :: acc) rest
    else if acc.isEmpty then digitRunsAux [] rest
    else acc.reverse :: digitRunsAux [] rest

/-- Python `re.findall(r'\d+', l)`: the maximal runs of digits in `l`,
left to right. -/
def digitRuns (l : Str) : List Str := digitRunsAux [] l

/-! ### Regex AST and matcher

The AST covers exactly the constructs used by the repository's patterns.
`grp` is the (single) capture group `(...)`; `bnd` is `\b`; `eol` is `$`.
Literals match case-insensitively, modelling the `re.IGNORECASE` flag that
every modelled `re.search` call passes. -/

inductive RE where
  | eps
  | lit (c : Nat)
  | cls (p : Nat → Bool)
  | seq (a b : RE)
  | alt (a b : RE)
  | star (a : RE)
  | bnd
  | eol
  | grp (a : RE)

/-- Structural size of a regex, for termination of the matcher. -/
def rsize : RE → Nat
  | .eps => 1
  | .lit _ => 1
  | .cls _ => 1
  | .bnd => 1
  | .eol => 1
  | .seq a b => rsize a + rsize b + 1
  | .alt a b => rsize a + rsize b + 1
  | .star a => rsize a + 1
  | .grp a => rsize a + 1

/-- The character that precedes the current position after consuming
`consumed` (for `\b`); falls back to the previous context. -/
def lastOr (prev : Option Nat) (consumed : Str) : Option Nat :=
  match consumed.getLast? with
  | some c => some c
  | none => prev

/-- First-wins combination of capture-group results. -/
def orElseG (a b : Option Str) : Option Str :=
  match a with
  | some x => some x
  | none => b

/-- All ways `r` can match a leading segment of `s`, in Python backtracking
priority order (leftmost alternative first, greedy repetition longest
first).  Each outcome is `(consumed, rest, group-1 capture)`.  `prev` is
the character just before the match position, for `\b`.  `f` is fuel,
decremented on every recursive call so that the definition is structural
(hence kernel-reducible); `research`/`searchGroup` supply
`(rsize r + 1) * (s.length + 2)` fuel, far more than the call depth the
patterns of this repository can reach, since every starred subpattern in
them consumes at least one character per iteration and the matcher never
repeats an empty-consuming iteration (matching Python, which stops a
repetition on an empty match). -/
def mrun : Nat → RE → Option Nat → Str → List (Str × Str × Option Str)
  | 0, _, _, _ => []
  | f + 1, r, prev, s =>
    match r with
    | .eps => [([], s, none)]
    | .lit c =>
      match s with
      | [] => []
      | d :: rest => if toLowerC d == toLowerC c then [([d], rest, none)] else []
    | .cls p =>
      match s with
      | [] => []
      | d :: rest => if p d then [([d], rest, none)] else []
    | .bnd =>
      let before := match prev with
        | some c => isWordB c
        | none => false
      let after := match s with
        | c :: _ => isWordB c
        | [] => false
      if before != after then [([], s, none)] else []
    | .eol => if s.isEmpty then [([], s, none)] else []
    | .seq a b =>
      (mrun f a prev s).flatMap (fun oa =>
        (mrun f b (lastOr prev oa.1) oa.2.1).map (fun ob =>
          (oa.1 ++ ob.1, ob.2.1, orElseG oa.2.2 ob.2.2)))
    | .alt a b => mrun f a prev s ++ mrun f b prev s
    | .grp a => (mrun f a prev s).map (fun oa => (oa.1, oa.2.1, some oa.1))
    | .star a =>
      ((mrun f a prev s).flatMap (fun oa =>
        if oa.1.isEmpty then []
        else (mrun f (.star a) (lastOr prev oa.1) oa.2.1).map (fun ob =>
          (oa.1 ++ ob.1, ob.2.1, orElseG oa.2.2 ob.2.2))))
      ++ [([], s, none)]

/-- Try to match `r` at each position of `s` from left to right, as
`re.search` does; returns `some g` (with `g` the group-1 capture) at the
first position where a match exists. -/
def searchGAux (r : RE) (fuel : Nat) : Option Nat → Str → Option (Option Str)
  | prev, s =>
    match (mrun fuel r prev s).head? with
    | some o => some o.2.2
    | none =>
      match s with
      | [] => none
      | c :: rest => searchGAux r fuel (some c) rest

/-- The fuel budget handed to `mrun`: far beyond the matcher's possible
call depth on this repository's patterns. -/
def fuelFor (r : RE) (s : Str) : Nat := (rsize r + 1) * (s.length + 2)

/-- Python `re.search(r, s, re.IGNORECASE) is not None`. -/
def research (r : RE) (s : Str) : Bool :=
  (searchGAux r (fuelFor r s) none s).isSome

/-- Python `m = re.search(r, s, re.IGNORECASE); m.group(1) if m else None`
(every pattern this is applied to places its group on a mandatory path, so
a match always captures). -/
def searchGroup (r : RE) (s : Str) : Option Str :=
  match searchGAux r (fuelFor r s) none s with
  | some (some g) => some g
  | _ => none

/-! ### Regex construction helpers (the pattern combinators) -/

/-- Concatenation of a list of regexes. -/
def cat (l : List RE) : RE := l.foldr RE.seq RE.eps

/-- A literal string as a regex. -/
def lits (s : String) : RE := cat ((str s).map RE.lit)

/-- `a|b|c`, left priority first. -/
def alts : List RE → RE
  | [] => RE.eps
  | [r] => r
  | r :: rs => RE.alt r (alts rs)

/-- `r?` (greedy). -/
def ropt (r : RE) : RE := RE.alt r RE.eps

/-- `r+` (greedy). -/
def rplus (r : RE) : RE := RE.seq r (RE.star r)

/-- `\s`. -/
def rsp : RE := RE.cls isSpaceB

/-- `\d`. -/
def rdig : RE := RE.cls isDigitB

/-- `\w`. -/
def rwc : RE := RE.cls isWordB

/-- `.` (any character except newline). -/
def rdot : RE := RE.cls (fun c => c != 10)

/-- The character class `[a-zA-Z0-9\-_]`. -/
def ridc : RE := RE.cls (fun c => isWordB c || c == 45)

/-- `\d{3,}`. -/
def rdig3p : RE := cat [rdig, rdig, rdig, RE.star rdig]

/-- `\d{3}`. -/
def rdig3 : RE := cat [rdig, rdig, rdig]

/-! ### FastIntentClassifier pattern tables
(backend/services/fast_intent_classifier.py, `__init__`, lines 20-91).
Each entry carries its pattern-type tag exactly as in the source. -/

/-- `self.greeting_patterns` (lines 63-71):
`\b(?:hello|hi|hey|good\s+(?:morning|afternoon|evening))` → greeting,
`\b(?:how\s+are\s+you|how\s+do\s+you\s+do)` → greeting,
`\b(?:thanks?|thank\s+you)` → thanks,
`\b(?:thank\s+you\s+(?:so\s+)?much)` → thanks,
`\b(?:perfect.*thank|great.*thank)` → thanks,
`\b(?:goodbye|see\s+you|have\s+a\s+good)` → thanks,
`\b(?:appreciate\s+it)` → thanks. -/
def greeting_patterns : List (RE × Str) :=
  [ (cat [.bnd, alts [lits "hello", lits "hi", lits "hey",
      cat [lits "good", rplus rsp,
        alts [lits "morning", lits "afternoon", lits "evening"]]]],
     str "greeting"),
    (cat [.bnd, alts
      [cat [lits "how", rplus rsp, lits "are", rplus rsp, lits "you"],
       cat [lits "how", rplus rsp, lits "do", rplus rsp, lits "you",
            rplus rsp, lits "do"]]],
     str "greeting"),
    (cat [.bnd, alts [cat [lits "thank", ropt (.lit 115)],
       cat [lits "thank", rplus rsp, lits "you"]]],
     str "thanks"),
    (cat [.bnd, lits "thank", rplus rsp, lits "you", rplus rsp,
      ropt (cat [lits "so", rplus rsp]), lits "much"],
     str "thanks"),
    (cat [.bnd, alts [cat [lits "perfect", RE.star rdot, lits "thank"],
       cat [lits "great", RE.star rdot, lits "thank"]]],
     str "thanks"),
    (cat [.bnd, alts [lits "goodbye", cat [lits "see", rplus rsp, lits "you"],
       cat [lits "have", rplus rsp, lits "a", rplus rsp, lits "good"]]],
     str "thanks"),
    (cat [.bnd, lits "appreciate", rplus rsp, lits "it"], str "thanks") ]

/-- `self.escalation_patterns` (lines 74-78):
`\b(?:escalate|human|agent|person|representative)`,
`\b(?:speak\s+to|talk\s+to|connect\s+me)`,
`\b(?:transfer|forward|hand\s+over)`, all tagged escalation. -/
def escalation_patterns : List (RE × Str) :=
  [ (cat [.bnd, alts [lits "escalate", lits "human", lits "agent",
       lits "person", lits "representative"]], str "escalation"),
    (cat [.bnd, alts [cat [lits "speak", rplus rsp, lits "to"],
       cat [lits "talk", rplus rsp, lits "to"],
       cat [lits "connect", rplus rsp, lits "me"]]], str "escalation"),
    (cat [.bnd, alts [lits "transfer", lits "forward",
       cat [lits "hand", rplus rsp, lits "over"]]], str "escalation") ]

/-- `self.followup_patterns` (lines 81-91):
`\b(?:yes|yeah|yep|sure|okay|ok)\b.*(?:show|list|display)` → followup_show,
`\b(?:please\s+)?(?:show|list|display)\s+(?:them|those|it)` → followup_show,
`\b(?:yes|yeah|yep|sure|okay|ok)\b.*(?:please)` → followup_confirm,
`\b(?:go\s+ahead|continue|proceed)` → followup_confirm,
`\b(?:who|which\s+team)\s+(?:was\s+)?(?:it\s+)?(?:assigned)` → contextual_team,
`\b(?:what\s+(?:was\s+)?(?:the\s+)?(?:resolution\s+time|time))` → contextual_time,
`\b(?:that\s+(?:particular\s+)?ticket)` → contextual_ticket. -/
def followup_patterns : List (RE × Str) :=
  [ (cat [.bnd, alts [lits "yes", lits "yeah", lits "yep", lits "sure",
       lits "okay", lits "ok"], .bnd, RE.star rdot,
       alts [lits "show", lits "list", lits "display"]],
     str "followup_show"),
    (cat [.bnd, ropt (cat [lits "please", rplus rsp]),
       alts [lits "show", lits "list", lits "display"], rplus rsp,
       alts [lits "them", lits "those", lits "it"]],
     str "followup_show"),
    (cat [.bnd, alts [lits "yes", lits "yeah", lits "yep", lits "sure",
       lits "okay", lits "ok"], .bnd, RE.star rdot, lits "please"],
     str "followup_confirm"),
    (cat [.bnd, alts [cat [lits "go", rplus rsp, lits "ahead"],
       lits "continue", lits "proceed"]],
     str "followup_confirm"),
    (cat [.bnd, alts [lits "who", cat [lits "which", rplus rsp, lits "team"]],
       rplus rsp, ropt (cat [lits "was", rplus rsp]),
       ropt (cat [lits "it", rplus rsp]), lits "assigned"],
     str "contextual_team"),
    (cat [.bnd, lits "what", rplus rsp, ropt (cat [lits "was", rplus rsp]),
       ropt (cat [lits "the", rplus rsp]),
       alts [cat [lits "resolution", rplus rsp, lits "time"], lits "time"]],
     str "contextual_time"),
    (cat [.bnd, lits "that", rplus rsp,
       ropt (cat [lits "particular", rplus rsp]), lits "ticket"],
     str "contextual_ticket") ]

/-- `self.ticket_patterns` (lines 20-44), tags as in source:
`\b(?:ticket|id)\s*(?:id\s*)?(?:#\s*)?([a-zA-Z0-9\-_]+)` → ticket_id,
`\b(?:it-\d+|#\d+|\d{3,})\b` → ticket_id,
`\b(?:status|state)\s+(?:of|for)?\s*(?:my\s+)?(?:ticket|id)` → status,
`\b(?:what|how)\s+(?:is\s+)?(?:the\s+)?status` → status,
`\b(?:description|details|info|information)\s+(?:of|for|about)` → description,
`\b(?:resolution|solution|fix)\s+(?:of|for|to)` → resolution,
`\b(?:show|get|find|lookup)\s+(?:me\s+)?(?:ticket|id)` → lookup,
`\b(?:who|which\s+team)\s+(?:was\s+)?(?:it\s+)?(?:assigned\s+to)` → team_assignment,
`\b(?:assigned\s+to|assigned\s+team)` → team_assignment,
`\b(?:resolution\s+time|how\s+long)` → resolution_time,
`\b(?:my\s+)?(?:tickets?|issues?|problems?)` → general_ticket,
`\b(?:open|closed|pending|resolved)\s+tickets?` → ticket_search,
`\b(?:show|list|display|get)\s+(?:me\s+)?(?:all\s+)?(?:my\s+)?(?:high|low|medium|priority|urgent)?\s*(?:priority\s+)?tickets?` → ticket_search,
`\b(?:all|high|low|medium)\s+priority\s+tickets?` → ticket_search. -/
def ticket_patterns : List (RE × Str) :=
  [ (cat [.bnd, alts [lits "ticket", lits "id"], RE.star rsp,
       ropt (cat [lits "id", RE.star rsp]),
       ropt (cat [.lit 35, RE.star rsp]), .grp (rplus ridc)],
     str "ticket_id"),
    (cat [.bnd, alts [cat [lits "it-", rplus rdig],
       cat [.lit 35, rplus rdig], rdig3p], .bnd],
     str "ticket_id"),
    (cat [.bnd, alts [lits "status", lits "state"], rplus rsp,
       ropt (alts [lits "of", lits "for"]), RE.star rsp,
       ropt (cat [lits "my", rplus rsp]), alts [lits "ticket", lits "id"]],
     str "status"),
    (cat [.bnd, alts [lits "what", lits "how"], rplus rsp,
       ropt (cat [lits "is", rplus rsp]), ropt (cat [lits "the", rplus rsp]),
       lits "status"],
     str "status"),
    (cat [.bnd, alts [lits "description", lits "details", lits "info",
       lits "information"], rplus rsp, alts [lits "of", lits "for", lits "about"]],
     str "description"),
    (cat [.bnd, alts [lits "resolution", lits "solution", lits "fix"],
       rplus rsp, alts [lits "of", lits "for", lits "to"]],
     str "resolution"),
    (cat [.bnd, alts [lits "show", lits "get", lits "find", lits "lookup"],
       rplus rsp, ropt (cat [lits "me", rplus rsp]),
       alts [lits "ticket", lits "id"]],
     str "lookup"),
    (cat [.bnd, alts [lits "who", cat [lits "which", rplus rsp, lits "team"]],
       rplus rsp, ropt (cat [lits "was", rplus rsp]),
       ropt (cat [lits "it", rplus rsp]),
       cat [lits "assigned", rplus rsp, lits "to"]],
     str "team_assignment"),
    (cat [.bnd, alts [cat [lits "assigned", rplus rsp, lits "to"],
       cat [lits "assigned", rplus rsp, lits "team"]]],
     str "team_assignment"),
    (cat [.bnd, alts [cat [lits "resolution", rplus rsp, lits "time"],
       cat [lits "how", rplus rsp, lits "long"]]],
     str "resolution_time"),
    (cat [.bnd, ropt (cat [lits "my", rplus rsp]),
       alts [cat [lits "ticket", ropt (.lit 115)],
         cat [lits "issue", ropt (.lit 115)],
         cat [lits "problem", ropt (.lit 115)]]],
     str "general_ticket"),
    (cat [.bnd, alts [lits "open", lits "closed", lits "pending",
       lits "resolved"], rplus rsp, lits "ticket", ropt (.lit 115)],
     str "ticket_search"),
    (cat [.bnd, alts [lits "show", lits "list", lits "display", lits "get"],
       rplus rsp, ropt (cat [lits "me", rplus rsp]),
       ropt (cat [lits "all", rplus rsp]), ropt (cat [lits "my", rplus rsp]),
       ropt (alts [lits "high", lits "low", lits "medium", lits "priority",
         lits "urgent"]), RE.star rsp,
       ropt (cat [lits "priority", rplus rsp]), lits "ticket", ropt (.lit 115)],
     str "ticket_search"),
    (cat [.bnd, alts [lits "all", lits "high", lits "low", lits "medium"],
       rplus rsp, lits "priority", rplus rsp, lits "ticket", ropt (.lit 115)],
     str "ticket_search") ]

/-- `self.knowledge_patterns` (lines 47-60):
`\b(?:what|how|why|when|where)\s+(?:is|are|do|does|can|should)` → question,
`\b(?:how\s+(?:do\s+i|to|can\s+i))` → how_to,
`\b(?:what\s+(?:is|are))\s+(?:a|an|the)?\s*(\w+)` → definition,
`\b(?:help|guide|documentation|docs|manual)` → help,
`\b(?:explain|tell\s+me|show\s+me)\s+(?:about|how)` → explanation,
`\b(?:probe|superops|network|monitor|scan)` → product_feature,
`\b(?:install|setup|configure|add|create)` → setup_help. -/
def knowledge_patterns : List (RE × Str) :=
  [ (cat [.bnd, alts [lits "what", lits "how", lits "why", lits "when",
       lits "where"], rplus rsp, alts [lits "is", lits "are", lits "do",
       lits "does", lits "can", lits "should"]],
     str "question"),
    (cat [.bnd, lits "how", rplus rsp,
       alts [cat [lits "do", rplus rsp, lits "i"], lits "to",
         cat [lits "can", rplus rsp, lits "i"]]],
     str "how_to"),
    (cat [.bnd, lits "what", rplus rsp, alts [lits "is", lits "are"],
       rplus rsp, ropt (alts [lits "a", lits "an", lits "the"]),
       RE.star rsp, .grp (rplus rwc)],
     str "definition"),
    (cat [.bnd, alts [lits "help", lits "guide", lits "documentation",
       lits "docs", lits "manual"]],
     str "help"),
    (cat [.bnd, alts [lits "explain", cat [lits "tell", rplus rsp, lits "me"],
       cat [lits "show", rplus rsp, lits "me"]], rplus rsp,
       alts [lits "about", lits "how"]],
     str "explanation"),
    (cat [.bnd, alts [lits "probe", lits "superops", lits "network",
       lits "monitor", lits "scan"]],
     str "product_feature"),
    (cat [.bnd, alts [lits "install", lits "setup", lits "configure",
       lits "add", lits "create"]],
     str "setup_help") ]

/-- The `it_patterns` local to `_check_ticket_patterns` (lines 196-199):
`\bit\s+(\d+)\b` ("IT 001") tried before `\bit-(\d+)\b` ("IT-001"). -/
def it_patterns : List RE :=
  [ cat [.bnd, lits "it", rplus rsp, .grp (rplus rdig), .bnd],
    cat [.bnd, lits "it-", .grp (rplus rdig), .bnd] ]

/-- The `ticket_id_patterns` local to `_check_ticket_patterns`
(lines 210-215):
`\b(?:ticket|id)\s*(?:id\s*)?(?:#\s*)?([a-zA-Z0-9\-_]+)`, `#(\d+)`,
`\b(\d{3,})\b`, `(?:of|for)\s+([a-zA-Z0-9\-_]+)(?:\s|$)`. -/
def ticket_id_patterns : List RE :=
  [ cat [.bnd, alts [lits "ticket", lits "id"], RE.star rsp,
      ropt (cat [lits "id", RE.star rsp]),
      ropt (cat [.lit 35, RE.star rsp]), .grp (rplus ridc)],
    cat [.lit 35, .grp (rplus rdig)],
    cat [.bnd, .grp rdig3p, .bnd],
    cat [alts [lits "of", lits "for"], rplus rsp, .grp (rplus ridc),
      alts [rsp, .eol]] ]

/-- The `skip_words` list of `_check_ticket_patterns` (line 222). -/
def skip_words : List Str :=
  [str "ticket", str "description", str "resolution", str "status",
   str "for", str "of", str "my", str "similar", str "current",
   str "currently", str "open", str "closed"]

/-! ### Data model (backend/agents/base_agent.py) -/

/-- `IntentType` (base_agent.py lines 18-25). -/
inductive IntentType where
  | TICKET_QUERY
  | KNOWLEDGE_QUERY
  | MIXED_QUERY
  | GREETING
  | ESCALATION
  | FOLLOWUP
  | UNKNOWN
deriving DecidableEq

/-- The enum's string `value`. -/
def IntentType.value : IntentType → Str
  | .TICKET_QUERY => str "ticket_query"
  | .KNOWLEDGE_QUERY => str "knowledge_query"
  | .MIXED_QUERY => str "mixed_query"
  | .GREETING => str "greeting"
  | .ESCALATION => str "escalation"
  | .FOLLOWUP => str "followup"
  | .UNKNOWN => str "unknown"

/-- Python `IntentType(v)`: look an enum member up by value; `none` models
the `ValueError` the constructor raises for an unknown value. -/
def IntentType.ofValue (v : Str) : Option IntentType :=
  if v == str "ticket_query" then some .TICKET_QUERY
  else if v == str "knowledge_query" then some .KNOWLEDGE_QUERY
  else if v == str "mixed_query" then some .MIXED_QUERY
  else if v == str "greeting" then some .GREETING
  else if v == str "escalation" then some .ESCALATION
  else if v == str "followup" then some .FOLLOWUP
  else if v == str "unknown" then some .UNKNOWN
  else none

/-- A value in an `entities`/`metadata` dict: the modelled code stores
strings and booleans. -/
inductive EVal where
  | s (v : Str)
  | b (v : Bool)
deriving DecidableEq

/-- A Python dict with string keys, in insertion order. -/
abbrev Entities := List (Str × EVal)

/-- Dict lookup `d.get(k)`. -/
def lookupE (k : Str) (e : Entities) : Option EVal :=
  (e.find? (fun kv => kv.1 == k)).map (fun kv => kv.2)

/-- `Intent` (base_agent.py lines 109-114).  Confidence floats are
modelled as rationals. -/
structure Intent where
  intent_type : IntentType
  confidence : ℚ
  entities : Entities
  reasoning : Option Str
deriving DecidableEq

/-- `AgentType` (base_agent.py lines 12-15). -/
inductive AgentType where
  | SUPERVISOR
  | TICKET
  | KNOWLEDGE
deriving DecidableEq

/-- `Message` (base_agent.py lines 28-33); the `timestamp` field is not
read by any function modelled here and is omitted. -/
structure Message where
  content : Str
  speaker : Str
  confidence : Option ℚ
deriving DecidableEq

/-- `ConversationContext` (base_agent.py lines 36-44), restricted to the
fields the modelled functions read (`current_topic`, `last_agent_used`,
`last_response_data` are never read by them). -/
structure ConversationContext where
  session_id : Str
  user_id : Option Str
  conversation_history : List Message
  confidence_scores : List ℚ
deriving DecidableEq

/-- `AgentTask` (base_agent.py lines 117-123). -/
structure AgentTask where
  agent_type : AgentType
  query : Str
  context : ConversationContext
  priority : Nat
  metadata : Entities
deriving DecidableEq

/-! ### FastIntentClassifier (backend/services/fast_intent_classifier.py) -/

namespace FastIntentClassifier

/-- `_check_patterns` (lines 183-188): first pattern in the list that
matches the query wins; its type tag is returned. -/
def check_patterns (query : Str) (patterns : List (RE × Str)) : Option Str :=
  patterns.findSome? (fun rt => if research rt.1 query then some rt.2 else none)

/-- `_normalize_ticket_id` (lines 235-260): normalize to IT-XXX format. -/
def normalize_ticket_id (raw_id : Str) : Str :=
  let r := toUpperL (stripW raw_id)
  if startsW (str "IT-") r then r
  else if startsW (str "IT") r && decide (2 < r.length) && isDigits (r.drop 2)
  then str "IT-" ++ zfill 3 (r.drop 2)
  else if isDigits r then str "IT-" ++ zfill 3 r
  else
    match digitRuns r with
    | n :: _ => str "IT-" ++ zfill 3 n
    | [] => r

/-- `_check_ticket_patterns` (lines 190-233): extract a `ticket_id` entity
(the `IT 001`/`IT-001` patterns take priority; otherwise the first
`ticket_id_patterns` hit whose raw capture is not a skip word and has
length > 1, normalized), and report the first matching ticket pattern's
tag.  The final loop over `self.ticket_patterns` (lines 228-231) is the
same loop as `_check_patterns`. -/
def check_ticket_patterns (query : Str) : Option Str × Entities :=
  let itNum := it_patterns.findSome? (fun r => searchGroup r query)
  let entities : Entities :=
    match itNum with
    | some number => [(str "ticket_id", .s (str "IT-" ++ zfill 3 number))]
    | none =>
      match ticket_id_patterns.findSome? (fun r =>
        match searchGroup r query with
        | some raw_id =>
          if skip_words.contains (toLowerL raw_id) || raw_id.length ≤ 1
          then none else some raw_id
        | none => none) with
      | some raw_id => [(str "ticket_id", .s (normalize_ticket_id raw_id))]
      | none => []
  (check_patterns query ticket_patterns, entities)

/-- The `ticket_info_keywords` / `has_ticket_info` computation of
`classify_intent` (lines 140-141).  The source computes this value and
then never reads it; it is kept here for completeness. -/
def has_ticket_info (query_lower : Str) : Bool :=
  [str "status", str "resolution", str "priority", str "category",
   str "description", str "assigned", str "created", str "updated"].any
    (fun keyword => containsSub keyword query_lower)

/-- The `explicit_mixed_indicators` list of `classify_intent`
(lines 144-151); Python truthiness of `ticket_match`/`knowledge_match`
(Optional strings) is `isSome`. -/
def explicit_mixed_indicators (query_lower : Str)
    (ticket_match knowledge_match : Option Str) : List Bool :=
  [ containsSub (str "can you also") query_lower &&
      ([str "what is", str "how to", str "explain"].any
        (fun kw => containsSub kw query_lower)),
    containsSub (str "and also") query_lower &&
      ticket_match.isSome && knowledge_match.isSome,
    containsSub (str "also tell me") query_lower &&
      (ticket_match.isSome || knowledge_match.isSome),
    containsSub (str "also explain") query_lower &&
      (ticket_match.isSome || knowledge_match.isSome),
    containsSub (str "ticket") query_lower &&
      containsSub (str "also") query_lower &&
      ([str "explain", str "tell me about", str "what is a",
        str "how does"].any (fun kw => containsSub kw query_lower)) ]

/-- `classify_intent` (lines 93-181): rule-based fast classification;
`none` means "fall back to the LLM".  Tier order as in the source:
greeting, escalation, follow-up, explicit-mixed, ticket, knowledge.
A `ticket_id` entity is a nonempty string whenever present, so Python's
truthiness test `ticket_entities.get('ticket_id')` (line 162) is `isSome`. -/
def classify_intent (query : Str) : Option Intent :=
  let query_lower := toLowerL (stripW query)
  if query_lower.isEmpty then none
  else
    match check_patterns query_lower greeting_patterns with
    | some _ =>
      some ⟨.GREETING, mkRat 95 100, [], some (str "Detected greeting pattern")⟩
    | none =>
    match check_patterns query_lower escalation_patterns with
    | some _ =>
      some ⟨.ESCALATION, mkRat 90 100, [], some (str "Detected escalation request")⟩
    | none =>
    match check_patterns query_lower followup_patterns with
    | some _ =>
      some ⟨.TICKET_QUERY, mkRat 85 100, [(str "followup", .b true)],
        some (str "Detected follow-up query")⟩
    | none =>
    let tm := check_ticket_patterns query_lower
    let knowledge_match := check_patterns query_lower knowledge_patterns
    if (explicit_mixed_indicators query_lower tm.1 knowledge_match).any id then
      some ⟨.MIXED_QUERY, mkRat 90 100, tm.2,
        some (str "Detected explicit mixed query with dual request indicators")⟩
    else
      match tm.1 with
      | some ticket_match =>
        let confidence : ℚ :=
          if (lookupE (str "ticket_id") tm.2).isSome then mkRat 95 100 else mkRat 85 100
        some ⟨.TICKET_QUERY, confidence, tm.2,
          some (str "Detected ticket query pattern: " ++ ticket_match)⟩
      | none =>
      match check_patterns query_lower knowledge_patterns with
      | some km =>
        some ⟨.KNOWLEDGE_QUERY, mkRat 85 100, [],
          some (str "Detected knowledge query pattern: " ++ km)⟩
      | none => none

end FastIntentClassifier

/-! ### SupervisorAgent (backend/agents/supervisor_agent.py) -/

namespace SupervisorAgent

/-- `self.escalation_threshold` (line 32). -/
def escalation_threshold : ℚ := mkRat 6 10

/-- `route_to_agents` (lines 234-295): deterministic mapping from the
intent category to the list of agent tasks.  The final `else` branch is
the source's `else:  # UNKNOWN` fallback, which is reached by every
category not matched above it. -/
def route_to_agents (intent : Intent) (query : Str)
    (context : ConversationContext) : List AgentTask :=
  if intent.intent_type = .TICKET_QUERY then
    [⟨.TICKET, query, context, 1, [(str "intent", .s intent.intent_type.value)]⟩]
  else if intent.intent_type = .KNOWLEDGE_QUERY then
    [⟨.KNOWLEDGE, query, context, 1, [(str "intent", .s intent.intent_type.value)]⟩]
  else if intent.intent_type = .MIXED_QUERY then
    [⟨.TICKET, query, context, 1,
       [(str "intent", .s intent.intent_type.value), (str "mixed", .b true)]⟩,
     ⟨.KNOWLEDGE, query, context, 1,
       [(str "intent", .s intent.intent_type.value), (str "mixed", .b true)]⟩]
  else if intent.intent_type = .GREETING then []
  else if intent.intent_type = .ESCALATION then []
  else
    [⟨.KNOWLEDGE, query, context, 2,
       [(str "intent", .s intent.intent_type.value), (str "fallback", .b true)]⟩]

/-- The `requires_escalation` flag computed by `process_query`
(lines 59-63): escalation intent, or confidence below the threshold. -/
def process_query_requires_escalation (intent : Intent) : Bool :=
  decide (intent.intent_type = .ESCALATION) ||
  decide (intent.confidence < escalation_threshold)

/-- `should_escalate` (lines 370-392).  The source guards the phrase scan
with `if context.conversation_history:`; on an empty history the scan over
the last two messages is vacuous, so the guard is equivalent to the plain
`any` used here. -/
def should_escalate (confidence : ℚ) (context : ConversationContext) : Bool :=
  if confidence < escalation_threshold then true
  else if (lastN 2 context.conversation_history).any (fun msg =>
      [str "human", str "person", str "escalate", str "supervisor",
       str "manager"].any
        (fun phrase => containsSub phrase (toLowerL msg.content))) then true
  else if 3 ≤ context.confidence_scores.length &&
      (lastN 3 context.confidence_scores).all
        (fun score => decide (score < mkRat 7 10)) then true
  else false

/-- The result of `json.loads` on an intent response, already projected
through the `.get` defaulting of `_analyze_intent_with_llm`
(lines 126-129); `none` models `json.JSONDecodeError`.  The decoder itself
is Python's standard library, so it is a parameter here. -/
structure IntentData where
  intent_type : Str
  confidence : ℚ
  entities : Entities
  reasoning : Option Str
deriving DecidableEq

/-- The code-fence stripping of `_parse_intent_response` (lines 216-221):
strip, drop a leading "```json", drop a trailing "```". -/
def strip_fences (response : Str) : Str :=
  let r1 := stripW response
  let r2 := if startsW (str "```json") r1 then r1.drop 7 else r1
  if endsW (str "```") r2 then r2.take (r2.length - 3) else r2

/-- `_parse_intent_response` (lines 213-232): on decode failure, return
the fallback dict `intent_type="unknown", confidence=0.0, entities={},
reasoning="Failed to parse response"` instead of raising. -/
def parse_intent_response (loads : Str → Option IntentData)
    (response : Str) : IntentData :=
  match loads (strip_fences response) with
  | some d => d
  | none => ⟨str "unknown", mkRat 0 1, [], some (str "Failed to parse response")⟩

/-- `_analyze_intent_with_llm` (lines 109-130) applied to the text already
returned by `_call_bedrock`: parse, then build the `Intent`.
`IntentType(...)` raises `ValueError` on an unknown value; that exception
propagates to `analyze_intent`, modelled by `Except.error`. -/
def analyze_intent_with_llm (loads : Str → Option IntentData)
    (response : Str) : Except Str Intent :=
  let d := parse_intent_response loads response
  match IntentType.ofValue d.intent_type with
  | some t => .ok ⟨t, d.confidence, d.entities, d.reasoning⟩
  | none => .error (str "is not a valid IntentType")

/-- `analyze_intent` (lines 85-107): fast classifier first; otherwise the
LLM path.  `llm_response` is the outcome of `_call_bedrock`
(`Except.error` = transport/model exception).  Every exception in the
fallback path is caught and converted to an UNKNOWN intent with
confidence 0.0 (lines 100-107). -/
def analyze_intent (loads : Str → Option IntentData)
    (llm_response : Except Str Str) (query : Str) : Intent :=
  match FastIntentClassifier.classify_intent query with
  | some fast_intent => fast_intent
  | none =>
    match llm_response with
    | .error e =>
      ⟨.UNKNOWN, mkRat 0 1, [], some (str "Error during intent analysis: " ++ e)⟩
    | .ok response =>
      match analyze_intent_with_llm loads response with
      | .ok intent => intent
      | .error e =>
        ⟨.UNKNOWN, mkRat 0 1, [], some (str "Error during intent analysis: " ++ e)⟩

end SupervisorAgent

/-! ### TicketAgent (backend/agents/ticket_agent.py) -/

namespace TicketAgent

/-- `_normalize_ticket_id` (ticket_agent.py lines 306-333); its body is
the same normalization as the fast classifier's. -/
def normalize_ticket_id (raw_id : Str) : Str :=
  let r := toUpperL (stripW raw_id)
  if startsW (str "IT-") r then r
  else if startsW (str "IT") r && decide (2 < r.length) && isDigits (r.drop 2)
  then str "IT-" ++ zfill 3 (r.drop 2)
  else if isDigits r then str "IT-" ++ zfill 3 r
  else
    match digitRuns r with
    | n :: _ => str "IT-" ++ zfill 3 n
    | [] => r

/-- The patterns of `_get_last_ticket_id_from_context`
(ticket_agent.py lines 287-292):
`\b(IT-\d{3})\b`, `\bTicket\s+(IT-\d{3})\b`,
`\bmighty\s+ticket\s+(\d+)\b`, `\bticket\s+(\d+)\b`. -/
def context_ticket_patterns : List RE :=
  [ cat [.bnd, .grp (cat [lits "IT-", rdig3]), .bnd],
    cat [.bnd, lits "Ticket", rplus rsp, .grp (cat [lits "IT-", rdig3]), .bnd],
    cat [.bnd, lits "mighty", rplus rsp, lits "ticket", rplus rsp,
      .grp (rplus rdig), .bnd],
    cat [.bnd, lits "ticket", rplus rsp, .grp (rplus rdig), .bnd] ]

/-- The per-message body of the loop in `_get_last_ticket_id_from_context`
(lines 294-302): first pattern that matches gives its group-1 capture,
prefixed to IT-XXX when the capture is all digits. -/
def extract_ticket_mention (content : Str) : Option Str :=
  context_ticket_patterns.findSome? (fun r =>
    (searchGroup r content).map (fun ticket_id =>
      if isDigits ticket_id then str "IT-" ++ zfill 3 ticket_id
      else ticket_id))

/-- `_get_last_ticket_id_from_context` (lines 277-304): scan the last 10
messages of the history, newest first (both speakers), and return the
first extracted ticket ID; `none` when no message yields one. -/
def get_last_ticket_id_from_context (context : ConversationContext) :
    Option Str :=
  ((lastN 10 context.conversation_history).reverse).findSome?
    (fun message => extract_ticket_mention message.content)

end TicketAgent

/-! ### Helper lemmas on the string model -/

theorem isLowerB_iff {c : Nat} : isLowerB c = true ↔ 97 ≤ c ∧ c ≤ 122 := by
  simp [isLowerB]

theorem isSpaceB_iff {c : Nat} :
    isSpaceB c = true ↔ c = 32 ∨ (9 ≤ c ∧ c ≤ 13) := by
  simp [isSpaceB]

theorem isDigitB_iff {c : Nat} : isDigitB c = true ↔ 48 ≤ c ∧ c ≤ 57 := by
  simp [isDigitB]

theorem toUpperC_idem (c : Nat) : toUpperC (toUpperC c) = toUpperC c := by
  by_cases h : isLowerB c = true
  · have hv : toUpperC c = c - 32 := by unfold toUpperC; rw [if_pos h]
    rw [isLowerB_iff] at h
    have h2 : ¬ (isLowerB (c - 32) = true) := by rw [isLowerB_iff]; omega
    rw [hv]
    unfold toUpperC
    rw [if_neg h2]
  · have hv : toUpperC c = c := by unfold toUpperC; rw [if_neg h]
    rw [hv, hv]

theorem isSpaceB_toUpperC (c : Nat) : isSpaceB (toUpperC c) = isSpaceB c := by
  by_cases h : isLowerB c = true
  · have hv : toUpperC c = c - 32 := by unfold toUpperC; rw [if_pos h]
    rw [isLowerB_iff] at h
    have h1 : isSpaceB (c - 32) = false := by
      rw [Bool.eq_false_iff]
      intro hs; rw [isSpaceB_iff] at hs; omega
    have h2 : isSpaceB c = false := by
      rw [Bool.eq_false_iff]
      intro hs; rw [isSpaceB_iff] at hs; omega
    rw [hv, h1, h2]
  · have hv : toUpperC c = c := by unfold toUpperC; rw [if_neg h]
    rw [hv]

theorem toUpperC_of_digit {c : Nat} (h : isDigitB c = true) : toUpperC c = c := by
  rw [isDigitB_iff] at h
  have h2 : ¬ (isLowerB c = true) := by rw [isLowerB_iff]; omega
  unfold toUpperC
  rw [if_neg h2]

theorem isSpaceB_of_digit {c : Nat} (h : isDigitB c = true) :
    isSpaceB c = false := by
  rw [isDigitB_iff] at h
  rw [Bool.eq_false_iff]
  intro hs; rw [isSpaceB_iff] at hs; omega

theorem toUpperL_idem (l : Str) : toUpperL (toUpperL l) = toUpperL l := by
  unfold toUpperL
  rw [List.map_map]
  exact List.map_congr_left (fun c _ => toUpperC_idem c)

theorem startsW_iff {n h : Str} : startsW n h = true ↔ ∃ t, h = n ++ t := by
  induction n generalizing h with
  | nil => simp [startsW]
  | cons a as ih =>
    cases h with
    | nil =>
      simp only [startsW, List.cons_append]
      constructor
      · intro hf; cases hf
      · rintro ⟨t, ht⟩; cases ht
    | cons b bs =>
      simp only [startsW, Bool.and_eq_true, beq_iff_eq, ih, List.cons_append,
        List.cons.injEq]
      constructor
      · rintro ⟨hab, t, ht⟩; exact ⟨t, hab.symm, ht⟩
      · rintro ⟨t, hab, ht⟩; exact ⟨hab.symm, t, ht⟩

theorem startsW_self_append (n t : Str) : startsW n (n ++ t) = true :=
  startsW_iff.mpr ⟨t, rfl⟩

theorem containsSub_iff {n h : Str} :
    containsSub n h = true ↔ ∃ pre post, h = pre ++ n ++ post := by
  induction h with
  | nil =>
    simp only [containsSub, List.isEmpty_iff]
    constructor
    · intro hn; exact ⟨[], [], by simp [hn]⟩
    · rintro ⟨pre, post, hp⟩
      rcases List.append_eq_nil.mp (List.append_eq_nil.mp hp.symm).1 with ⟨_, h2⟩
      exact h2
  | cons c rest ih =>
    simp only [containsSub, Bool.or_eq_true, startsW_iff, ih]
    constructor
    · rintro (⟨t, ht⟩ | ⟨pre, post, hp⟩)
      · exact ⟨[], t, by simpa using ht⟩
      · exact ⟨c :: pre, post, by simp [hp]⟩
    · rintro ⟨pre, post, hp⟩
      cases pre with
      | nil => exact Or.inl ⟨post, by simpa using hp⟩
      | cons d pre' =>
        right
        rcases (List.cons.injEq _ _ _ _).mp (by simpa using hp) with ⟨_, h2⟩
        exact ⟨pre', post, by rw [h2, List.append_assoc]⟩

theorem containsSub_of_decomp {n pre post h : Str} (hd : h = pre ++ n ++ post) :
    containsSub n h = true :=
  containsSub_iff.mpr ⟨pre, post, hd⟩

theorem containsSub_trans {a b c : Str} (h1 : containsSub a b = true)
    (h2 : containsSub b c = true) : containsSub a c = true := by
  rcases containsSub_iff.mp h1 with ⟨p1, q1, hb⟩
  rcases containsSub_iff.mp h2 with ⟨p2, q2, hc⟩
  exact containsSub_iff.mpr ⟨p2 ++ p1, q1 ++ q2, by simp [hc, hb]⟩

theorem stripW_decomp (l : Str) : ∃ pre post, l = pre ++ stripW l ++ post := by
  unfold stripW lstripW
  refine ⟨l.takeWhile isSpaceB,
    ((l.dropWhile isSpaceB).reverse.takeWhile isSpaceB).reverse, ?_⟩
  conv_lhs => rw [← List.takeWhile_append_dropWhile isSpaceB l]
  rw [List.append_assoc]
  congr 1
  conv_lhs => rw [← List.reverse_reverse (l.dropWhile isSpaceB),
    ← List.takeWhile_append_dropWhile isSpaceB (l.dropWhile isSpaceB).reverse]
  rw [List.reverse_append]

theorem dropWhile_head_false (p : Nat → Bool) (l : Str) :
    ∀ c, (l.dropWhile p).head? = some c → p c = false := by
  induction l with
  | nil => intro c hc; simp [List.dropWhile] at hc
  | cons a as ih =>
    intro c hc
    by_cases ha : p a = true
    · rw [List.dropWhile_cons_of_pos ha] at hc
      exact ih c hc
    · rw [List.dropWhile_cons_of_neg ha] at hc
      simp only [List.head?_cons, Option.some.injEq] at hc
      rw [← hc]
      exact Bool.eq_false_iff.mpr ha

theorem dropWhile_eq_self_of_head (p : Nat → Bool) (l : Str)
    (h : ∀ c, l.head? = some c → p c = false) : l.dropWhile p = l := by
  cases l with
  | nil => rfl
  | cons a as =>
    have := h a (by simp)
    rw [List.dropWhile_cons_of_neg (by rw [this]; simp)]

theorem dropWhile_getLast? (p : Nat → Bool) (l : Str)
    (h : l.dropWhile p ≠ []) : (l.dropWhile p).getLast? = l.getLast? := by
  induction l with
  | nil => simp [List.dropWhile] at h
  | cons a as ih =>
    by_cases ha : p a = true
    · rw [List.dropWhile_cons_of_pos ha] at h ⊢
      have hne : as ≠ [] := by
        intro he; rw [he] at h; simp [List.dropWhile] at h
      have hcons : (a :: as).getLast? = as.getLast? := by
        cases as with
        | nil => exact absurd rfl hne
        | cons b bs => simp [List.getLast?_cons_cons]
      rw [ih h, hcons]
    · rw [List.dropWhile_cons_of_neg ha]

theorem stripW_idem (l : Str) : stripW (stripW l) = stripW l := by
  have hcore : ∀ m : Str, stripW (stripW m) = stripW m := by
    intro m
    set A := m.dropWhile isSpaceB with hA
    set X := A.reverse.dropWhile isSpaceB with hX
    have hs : stripW m = X.reverse := rfl
    have hheadX : ∀ c, X.head? = some c → isSpaceB c = false :=
      fun c hc => dropWhile_head_false isSpaceB A.reverse c hc
    have hheadS : ∀ c, X.reverse.head? = some c → isSpaceB c = false := by
      intro c hc
      rw [List.head?_reverse] at hc
      by_cases hXe : X = []
      · rw [hXe] at hc; simp at hc
      · rw [hX, dropWhile_getLast? isSpaceB A.reverse (hX ▸ hXe)] at hc
        rw [List.getLast?_reverse] at hc
        exact dropWhile_head_false isSpaceB m c (hA ▸ hc)
    rw [hs]
    unfold stripW lstripW
    rw [dropWhile_eq_self_of_head isSpaceB X.reverse hheadS]
    rw [List.reverse_reverse]
    rw [dropWhile_eq_self_of_head isSpaceB X hheadX]
  exact hcore l

theorem dropWhile_map_toUpperC (l : Str) :
    (l.map toUpperC).dropWhile isSpaceB = (l.dropWhile isSpaceB).map toUpperC := by
  induction l with
  | nil => rfl
  | cons a as ih =>
    by_cases ha : isSpaceB a = true
    · rw [List.map_cons, List.dropWhile_cons_of_pos (by rw [isSpaceB_toUpperC]; exact ha),
        List.dropWhile_cons_of_pos ha, ih]
    · rw [List.map_cons, List.dropWhile_cons_of_neg (by rw [isSpaceB_toUpperC]; exact ha),
        List.dropWhile_cons_of_neg ha, List.map_cons]

theorem stripW_toUpperL (l : Str) :
    stripW (toUpperL l) = toUpperL (stripW l) := by
  unfold stripW lstripW toUpperL
  rw [dropWhile_map_toUpperC, ← List.map_reverse, dropWhile_map_toUpperC,
    ← List.map_reverse]

theorem upper_strip_stable (x : Str) :
    toUpperL (stripW (toUpperL (stripW x))) = toUpperL (stripW x) := by
  rw [stripW_toUpperL, stripW_idem, toUpperL_idem]

theorem stripW_eq_self_of_no_space (l : Str)
    (h : ∀ c ∈ l, isSpaceB c = false) : stripW l = l := by
  unfold stripW lstripW
  rw [dropWhile_eq_self_of_head isSpaceB l
    (fun c hc => h c (by cases l with
      | nil => simp at hc
      | cons a as => exact (by simp at hc; rw [hc]; simp)))]
  rw [dropWhile_eq_self_of_head isSpaceB l.reverse
    (fun c hc => h c (by
      rw [List.head?_reverse] at hc
      exact List.mem_of_mem_getLast? hc))]
  rw [List.reverse_reverse]

theorem toUpperL_eq_self_of_fixed (l : Str)
    (h : ∀ c ∈ l, toUpperC c = c) : toUpperL l = l := by
  unfold toUpperL
  calc l.map toUpperC = l.map id := List.map_congr_left h
  _ = l := List.map_id l

theorem digitRunsAux_digits (l : Str) :
    ∀ acc : Str, (∀ c ∈ acc, isDigitB c = true) →
    ∀ n ∈ digitRunsAux acc l, ∀ c ∈ n, isDigitB c = true := by
  induction l with
  | nil =>
    intro acc hacc n hn c hc
    unfold digitRunsAux at hn
    by_cases he : acc.isEmpty = true
    · rw [if_pos he] at hn; simp at hn
    · rw [if_neg he] at hn
      simp only [List.mem_singleton] at hn
      rw [hn] at hc
      exact hacc c (List.mem_reverse.mp hc)
  | cons a as ih =>
    intro acc hacc n hn c hc
    unfold digitRunsAux at hn
    by_cases ha : isDigitB a = true
    · rw [if_pos ha] at hn
      refine ih (a :: acc) ?_ n hn c hc
      intro d hd
      rcases List.mem_cons.mp hd with h1 | h2
      · rw [h1]; exact ha
      · exact hacc d h2
    · rw [if_neg ha] at hn
      by_cases he : acc.isEmpty = true
      · rw [if_pos he] at hn
        exact ih [] (by simp) n hn c hc
      · rw [if_neg he] at hn
        rcases List.mem_cons.mp hn with h1 | h2
        · rw [h1] at hc
          exact hacc c (List.mem_reverse.mp hc)
        · exact ih [] (by simp) n h2 c hc

theorem digitRuns_digits {l n : Str} (h : n ∈ digitRuns l) :
    ∀ c ∈ n, isDigitB c = true :=
  digitRunsAux_digits l [] (by simp) n h

theorem isDigits_all {l : Str} (h : isDigits l = true) :
    ∀ c ∈ l, isDigitB c = true := by
  unfold isDigits at h
  exact List.all_eq_true.mp (Bool.and_elim_right h)

/-- A string already of the canonical shape (stripping and upper-casing
leave it unchanged, and it starts with "IT-") is a fixed point of the
normalization. -/
theorem normalize_fixed_of_IT (y : Str)
    (hst : toUpperL (stripW y) = y)
    (hIT : startsW (str "IT-") y = true) :
    FastIntentClassifier.normalize_ticket_id y = y := by
  simp only [FastIntentClassifier.normalize_ticket_id, hst]
  rw [if_pos hIT]

/-- Every output of the form `"IT-" ++ zfill 3 m` with `m` all digits is a
fixed point of the normalization. -/
theorem normalize_fixed_IT_zfill (m : Str)
    (hm : ∀ c ∈ m, isDigitB c = true) :
    FastIntentClassifier.normalize_ticket_id (str "IT-" ++ zfill 3 m) =
      str "IT-" ++ zfill 3 m := by
  have hall : ∀ c ∈ str "IT-" ++ zfill 3 m,
      isSpaceB c = false ∧ toUpperC c = c := by
    intro c hc
    have h3 : str "IT-" = [73, 84, 45] := by decide
    rw [h3] at hc
    simp only [zfill, List.mem_append, List.mem_cons, List.not_mem_nil,
      or_false, List.mem_replicate] at hc
    rcases hc with (h | h | h) | ⟨_, h⟩ | h
    · subst h; exact ⟨by decide, by decide⟩
    · subst h; exact ⟨by decide, by decide⟩
    · subst h; exact ⟨by decide, by decide⟩
    · subst h; exact ⟨by decide, by decide⟩
    · exact ⟨isSpaceB_of_digit (hm c h), toUpperC_of_digit (hm c h)⟩
  apply normalize_fixed_of_IT
  · rw [stripW_eq_self_of_no_space _ (fun c hc => (hall c hc).1)]
    exact toUpperL_eq_self_of_fixed _ (fun c hc => (hall c hc).2)
  · exact startsW_self_append _ _

/-- Ticket-ID normalization is idempotent. -/
theorem normalize_ticket_id_idem (x : Str) :
    FastIntentClassifier.normalize_ticket_id
      (FastIntentClassifier.normalize_ticket_id x) =
      FastIntentClassifier.normalize_ticket_id x := by
  have hstable : toUpperL (stripW (toUpperL (stripW x))) = toUpperL (stripW x) :=
    upper_strip_stable x
  by_cases h1 : startsW (str "IT-") (toUpperL (stripW x)) = true
  · have hx : FastIntentClassifier.normalize_ticket_id x = toUpperL (stripW x) := by
      simp only [FastIntentClassifier.normalize_ticket_id]
      rw [if_pos h1]
    rw [hx]
    exact normalize_fixed_of_IT _ hstable h1
  · by_cases h2 : (startsW (str "IT") (toUpperL (stripW x)) &&
        decide (2 < (toUpperL (stripW x)).length) &&
        isDigits ((toUpperL (stripW x)).drop 2)) = true
    · have hx : FastIntentClassifier.normalize_ticket_id x =
          str "IT-" ++ zfill 3 ((toUpperL (stripW x)).drop 2) := by
        simp only [FastIntentClassifier.normalize_ticket_id]
        rw [if_neg h1, if_pos h2]
      rw [hx]
      apply normalize_fixed_IT_zfill
      have hd : isDigits ((toUpperL (stripW x)).drop 2) = true :=
        Bool.and_elim_right h2
      exact isDigits_all hd
    · by_cases h3 : isDigits (toUpperL (stripW x)) = true
      · have hx : FastIntentClassifier.normalize_ticket_id x =
            str "IT-" ++ zfill 3 (toUpperL (stripW x)) := by
          simp only [FastIntentClassifier.normalize_ticket_id]
          rw [if_neg h1, if_neg h2, if_pos h3]
        rw [hx]
        exact normalize_fixed_IT_zfill _ (isDigits_all h3)
      · cases hdr : digitRuns (toUpperL (stripW x)) with
        | cons n rest =>
          have hx : FastIntentClassifier.normalize_ticket_id x =
              str "IT-" ++ zfill 3 n := by
            simp only [FastIntentClassifier.normalize_ticket_id]
            rw [if_neg h1, if_neg h2, if_neg h3, hdr]
          rw [hx]
          exact normalize_fixed_IT_zfill _
            (digitRuns_digits (hdr ▸ List.mem_cons_self n rest))
        | nil =>
          have hx : FastIntentClassifier.normalize_ticket_id x =
              toUpperL (stripW x) := by
            simp only [FastIntentClassifier.normalize_ticket_id]
            rw [if_neg h1, if_neg h2, if_neg h3, hdr]
          rw [hx]
          simp only [FastIntentClassifier.normalize_ticket_id, hstable]
          rw [if_neg h1, if_neg h2, if_neg h3, hdr]

/-- The two `_normalize_ticket_id` bodies are definitionally the same
function. -/
theorem normalize_bodies_eq :
    FastIntentClassifier.normalize_ticket_id = TicketAgent.normalize_ticket_id :=
  funext (fun _ => rfl)

theorem findSome?_append {α β : Type} (l1 l2 : List α) (f : α → Option β) :
    (l1 ++ l2).findSome? f =
      match l1.findSome? f with
      | some v => some v
      | none => l2.findSome? f := by
  induction l1 with
  | nil => simp [List.findSome?]
  | cons a as ih =>
    rw [List.cons_append]
    rw [List.findSome?_cons, List.findSome?_cons]
    cases f a with
    | some v => rfl
    | none => exact ih

/-- If one of the explicit mixed-query indicator booleans is set, the
lower-cased query contains the substring "also". -/
theorem mixed_indicators_have_also (ql : Str) (tm km : Option Str)
    (h : (FastIntentClassifier.explicit_mixed_indicators ql tm km).any id = true) :
    containsSub (str "also") ql = true := by
  simp only [FastIntentClassifier.explicit_mixed_indicators, List.any_cons,
    List.any_nil, id, Bool.or_eq_true, Bool.and_eq_true] at h
  rcases h with ⟨h, _⟩ | ⟨⟨h, _⟩, _⟩ | ⟨h, _⟩ | ⟨h, _⟩ | ⟨⟨_, h⟩, _⟩ | hf
  · exact containsSub_trans (by decide) h
  · exact containsSub_trans (by decide) h
  · exact containsSub_trans (by decide) h
  · exact containsSub_trans (by decide) h
  · exact h
  · cases hf

/-- Containment in the stripped lower-cased query implies containment in
the lower-cased query. -/
theorem containsSub_toLowerL_of_strip (n q : Str)
    (h : containsSub n (toLowerL (stripW q)) = true) :
    containsSub n (toLowerL q) = true := by
  rcases stripW_decomp q with ⟨pre, post, hq⟩
  have hlq : toLowerL q =
      toLowerL pre ++ toLowerL (stripW q) ++ toLowerL post := by
    conv_lhs => rw [hq]
    simp [toLowerL, List.map_append]
  rcases containsSub_iff.mp h with ⟨p1, p2, hs⟩
  refine containsSub_iff.mpr ⟨toLowerL pre ++ p1, p2 ++ toLowerL post, ?_⟩
  rw [hlq, hs]
  simp [List.append_assoc]

/-! ### The claims -/

/-- C1 counterexample: contrary to the claim that the query
"give me more details" in isolation classifies as FOLLOWUP with
confidence 0.90, the fast classifier matches no tier on it at all and
returns None (LLM fallback). -/
theorem C1_counterexample :
    FastIntentClassifier.classify_intent (str "give me more details") = none := by
  decide

/-- C1 (amended): the fast classifier checks the follow-up pattern tier
third — after the greeting and escalation tiers but before the ticket and
knowledge tiers — and when a follow-up pattern matches (and no earlier
tier matched) it returns category TICKET_QUERY with confidence 0.85 and a
`followup` entity flag, never a FOLLOWUP intent; and the query
"give me more details" matches no tier and yields None. -/
theorem C1_followup_tier (q t : Str)
    (h1 : FastIntentClassifier.check_patterns (toLowerL (stripW q))
      greeting_patterns = none)
    (h2 : FastIntentClassifier.check_patterns (toLowerL (stripW q))
      escalation_patterns = none)
    (h3 : FastIntentClassifier.check_patterns (toLowerL (stripW q))
      followup_patterns = some t) :
    FastIntentClassifier.classify_intent q =
      some ⟨.TICKET_QUERY, mkRat 85 100, [(str "followup", .b true)],
        some (str "Detected follow-up query")⟩ := by
  have hne : (toLowerL (stripW q)).isEmpty = false := by
    cases hql : toLowerL (stripW q) with
    | nil =>
      rw [hql] at h3
      have hnone : FastIntentClassifier.check_patterns [] followup_patterns =
          none := by decide
      rw [hnone] at h3
      cases h3
    | cons a l => rfl
  simp only [FastIntentClassifier.classify_intent, hne, h1, h2, h3,
    Bool.false_eq_true, if_false]

/-- C1 witness: the follow-up query "go ahead" exercises the amended
follow-up tier. -/
theorem C1_followup_tier_witness :
    FastIntentClassifier.classify_intent (str "go ahead") =
      some ⟨.TICKET_QUERY, mkRat 85 100, [(str "followup", .b true)],
        some (str "Detected follow-up query")⟩ :=
  C1_followup_tier (str "go ahead") (str "followup_confirm")
    (by decide) (by decide) (by decide)

/-- C2 counterexample: routing a FOLLOWUP intent does not return an empty
task list. -/
theorem C2_counterexample :
    SupervisorAgent.route_to_agents ⟨.FOLLOWUP, mkRat 90 100, [], none⟩
      (str "show me more") ⟨str "s", none, [], []⟩ ≠ [] := by
  decide

/-- C2 (amended): a FOLLOWUP intent falls through to `route_to_agents`'
default (UNKNOWN-labelled) branch: it returns exactly one task for the
knowledge agent with priority 2 and fallback metadata, not an empty list. -/
theorem C2_followup_routing (intent : Intent) (q : Str)
    (ctx : ConversationContext) (h : intent.intent_type = .FOLLOWUP) :
    SupervisorAgent.route_to_agents intent q ctx =
      [⟨.KNOWLEDGE, q, ctx, 2,
        [(str "intent", .s (str "followup")), (str "fallback", .b true)]⟩] := by
  simp [SupervisorAgent.route_to_agents, h, IntentType.value]

/-- C2 witness: a concrete FOLLOWUP intent routed through the supervisor. -/
theorem C2_followup_routing_witness :
    SupervisorAgent.route_to_agents ⟨.FOLLOWUP, mkRat 90 100, [], none⟩
      (str "show me more") ⟨str "s", none, [], []⟩ =
      [⟨.KNOWLEDGE, str "show me more", ⟨str "s", none, [], []⟩, 2,
        [(str "intent", .s (str "followup")), (str "fallback", .b true)]⟩] :=
  C2_followup_routing ⟨.FOLLOWUP, mkRat 90 100, [], none⟩ (str "show me more")
    ⟨str "s", none, [], []⟩ rfl

/-- C3: (a) three trailing confidence scores strictly below 0.7 force
`should_escalate` to return true whatever the current turn's confidence
is; (b) an ESCALATION-classified intent always sets the
`requires_escalation` flag computed by `process_query`, regardless of its
confidence value. -/
theorem C3_escalation_policy :
    (∀ (confidence : ℚ) (context : ConversationContext),
      3 ≤ context.confidence_scores.length →
      (∀ s ∈ lastN 3 context.confidence_scores, s < mkRat 7 10) →
      SupervisorAgent.should_escalate confidence context = true) ∧
    (∀ intent : Intent, intent.intent_type = .ESCALATION →
      SupervisorAgent.process_query_requires_escalation intent = true) := by
  constructor
  · intro confidence context hlen hlow
    unfold SupervisorAgent.should_escalate
    by_cases hc : confidence < SupervisorAgent.escalation_threshold
    · rw [if_pos hc]
    · rw [if_neg hc]
      by_cases hph : (lastN 2 context.conversation_history).any (fun msg =>
          [str "human", str "person", str "escalate", str "supervisor",
           str "manager"].any
            (fun phrase => containsSub phrase (toLowerL msg.content))) = true
      · rw [if_pos hph]
      · rw [if_neg hph]
        have hcond : (decide (3 ≤ context.confidence_scores.length) &&
            (lastN 3 context.confidence_scores).all
              (fun score => decide (score < mkRat 7 10))) = true := by
          rw [Bool.and_eq_true]
          refine ⟨decide_eq_true hlen, List.all_eq_true.mpr ?_⟩
          intro s hs
          exact decide_eq_true (hlow s hs)
        rw [if_pos hcond]
  · intro intent h
    unfold SupervisorAgent.process_query_requires_escalation
    rw [h]
    simp

/-- C3 witness: three sub-0.7 scores with a high-confidence current turn,
and an ESCALATION intent. -/
theorem C3_escalation_policy_witness :
    SupervisorAgent.should_escalate (mkRat 9 10)
      ⟨str "s", none, [], [mkRat 65 100, mkRat 1 2, mkRat 69 100]⟩ = true ∧
    SupervisorAgent.process_query_requires_escalation
      ⟨.ESCALATION, mkRat 9 10, [], none⟩ = true :=
  ⟨C3_escalation_policy.1 (mkRat 9 10)
      ⟨str "s", none, [], [mkRat 65 100, mkRat 1 2, mkRat 69 100]⟩
      (by decide) (by decide),
   C3_escalation_policy.2 ⟨.ESCALATION, mkRat 9 10, [], none⟩ rfl⟩

/-- C4: the context resolver scans the last 10 messages of the history
(user and assistant alike) newest first and returns the extracted ticket
ID of the most recent message that yields one; it returns None when no
message among those yields one; and on a history whose most recent
assistant turn mentions IT-007 it returns "IT-007".  (The resolver reads
only the conversation context; the caller invokes it for queries with a
contextual-reference cue and no explicit ticket ID.) -/
theorem C4_context_resolver :
    (∀ ctx : ConversationContext,
      (∀ m ∈ lastN 10 ctx.conversation_history,
        TicketAgent.extract_ticket_mention m.content = none) →
      TicketAgent.get_last_ticket_id_from_context ctx = none) ∧
    (∀ (ctx : ConversationContext) (pre post : List Message) (m : Message)
       (tid : Str),
      lastN 10 ctx.conversation_history = pre ++ m :: post →
      TicketAgent.extract_ticket_mention m.content = some tid →
      (∀ m' ∈ post, TicketAgent.extract_ticket_mention m'.content = none) →
      TicketAgent.get_last_ticket_id_from_context ctx = some tid) ∧
    (TicketAgent.get_last_ticket_id_from_context
      ⟨str "s", none,
        [⟨str "My printer is broken", str "user", none⟩,
         ⟨str "I created Ticket IT-007 for you", str "assistant", none⟩],
        []⟩ = some (str "IT-007")) := by
  refine ⟨?_, ?_, by decide⟩
  · intro ctx h
    unfold TicketAgent.get_last_ticket_id_from_context
    exact List.findSome?_eq_none_iff.mpr
      (fun m hm => h m (List.mem_reverse.mp hm))
  · intro ctx pre post m tid hsplit hm hpost
    unfold TicketAgent.get_last_ticket_id_from_context
    rw [hsplit, List.reverse_append, List.reverse_cons, List.append_assoc,
      findSome?_append]
    have hrev : post.reverse.findSome?
        (fun message => TicketAgent.extract_ticket_mention message.content) =
        none :=
      List.findSome?_eq_none_iff.mpr
        (fun m' hm' => hpost m' (List.mem_reverse.mp hm'))
    rw [hrev, List.singleton_append, List.findSome?_cons, hm]

/-- C4 witness: the most-recent-mention rule applied to a concrete
two-message history. -/
theorem C4_context_resolver_witness :
    TicketAgent.get_last_ticket_id_from_context
      ⟨str "s", none,
        [⟨str "ticket 3 was closed", str "assistant", none⟩,
         ⟨str "please look at mighty ticket 12", str "user", none⟩],
        []⟩ = some (str "IT-012") :=
  C4_context_resolver.2.1
    ⟨str "s", none,
      [⟨str "ticket 3 was closed", str "assistant", none⟩,
       ⟨str "please look at mighty ticket 12", str "user", none⟩], []⟩
    [⟨str "ticket 3 was closed", str "assistant", none⟩] []
    ⟨str "please look at mighty ticket 12", str "user", none⟩
    (str "IT-012") (by decide) (by decide) (by intro m' hm'; cases hm')

/-- C5: the LLM-fallback intent analysis never propagates an error: a
transport/model exception, a JSON-decode failure of the (fence-stripped)
response, and an invalid intent-type value in a decoded response all
produce an Intent with category UNKNOWN and confidence 0.0. -/
theorem C5_llm_fallback_safety :
    (∀ (loads : Str → Option SupervisorAgent.IntentData) (text q : Str),
      FastIntentClassifier.classify_intent q = none →
      loads (SupervisorAgent.strip_fences text) = none →
      SupervisorAgent.analyze_intent loads (.ok text) q =
        ⟨.UNKNOWN, mkRat 0 1, [], some (str "Failed to parse response")⟩) ∧
    (∀ (loads : Str → Option SupervisorAgent.IntentData) (e q : Str),
      FastIntentClassifier.classify_intent q = none →
      SupervisorAgent.analyze_intent loads (.error e) q =
        ⟨.UNKNOWN, mkRat 0 1, [],
          some (str "Error during intent analysis: " ++ e)⟩) ∧
    (∀ (loads : Str → Option SupervisorAgent.IntentData) (text q : Str)
       (d : SupervisorAgent.IntentData),
      FastIntentClassifier.classify_intent q = none →
      loads (SupervisorAgent.strip_fences text) = some d →
      IntentType.ofValue d.intent_type = none →
      (SupervisorAgent.analyze_intent loads (.ok text) q).intent_type =
        .UNKNOWN ∧
      (SupervisorAgent.analyze_intent loads (.ok text) q).confidence =
        mkRat 0 1) := by
  refine ⟨?_, ?_, ?_⟩
  · intro loads text q hq hdec
    simp only [SupervisorAgent.analyze_intent, hq,
      SupervisorAgent.analyze_intent_with_llm,
      SupervisorAgent.parse_intent_response, hdec]
    decide
  · intro loads e q hq
    simp only [SupervisorAgent.analyze_intent, hq]
  · intro loads text q d hq hdec hval
    simp only [SupervisorAgent.analyze_intent, hq,
      SupervisorAgent.analyze_intent_with_llm,
      SupervisorAgent.parse_intent_response, hdec, hval]
    exact ⟨trivial, trivial⟩

/-- C5 witness: a decode failure, a transport error and an invalid intent
type on concrete inputs. -/
theorem C5_llm_fallback_safety_witness :
    SupervisorAgent.analyze_intent (fun _ => none) (.ok (str "oops"))
      (str "zzz") =
      ⟨.UNKNOWN, mkRat 0 1, [], some (str "Failed to parse response")⟩ ∧
    SupervisorAgent.analyze_intent (fun _ => none) (.error (str "timeout"))
      (str "zzz") =
      ⟨.UNKNOWN, mkRat 0 1, [],
        some (str "Error during intent analysis: " ++ str "timeout")⟩ ∧
    (SupervisorAgent.analyze_intent
      (fun _ => some ⟨str "bogus", mkRat 1 2, [], none⟩)
      (.ok (str "x")) (str "zzz")).intent_type = .UNKNOWN :=
  ⟨C5_llm_fallback_safety.1 (fun _ => none) (str "oops") (str "zzz")
      (by decide) rfl,
   C5_llm_fallback_safety.2.1 (fun _ => none) (str "timeout") (str "zzz")
      (by decide),
   (C5_llm_fallback_safety.2.2 (fun _ => some ⟨str "bogus", mkRat 1 2, [], none⟩)
      (str "x") (str "zzz") ⟨str "bogus", mkRat 1 2, [], none⟩
      (by decide) rfl (by decide)).1⟩

/-- C6: routing is a deterministic function of the intent category:
MIXED_QUERY yields exactly a ticket task and a knowledge task, both with
`mixed = true` metadata and the same priority (1); ESCALATION yields no
tasks; UNKNOWN yields exactly one knowledge task whose priority number 2
is larger — that is, a lower priority — than the priority 1 carried by
every task of the normal (TICKET_QUERY / KNOWLEDGE_QUERY / MIXED_QUERY)
branches. -/
theorem C6_routing_map (intent : Intent) (q : Str) (ctx : ConversationContext) :
    (intent.intent_type = .MIXED_QUERY →
      SupervisorAgent.route_to_agents intent q ctx =
        [⟨.TICKET, q, ctx, 1,
           [(str "intent", .s (str "mixed_query")), (str "mixed", .b true)]⟩,
         ⟨.KNOWLEDGE, q, ctx, 1,
           [(str "intent", .s (str "mixed_query")), (str "mixed", .b true)]⟩]) ∧
    (intent.intent_type = .ESCALATION →
      SupervisorAgent.route_to_agents intent q ctx = []) ∧
    (intent.intent_type = .UNKNOWN →
      SupervisorAgent.route_to_agents intent q ctx =
        [⟨.KNOWLEDGE, q, ctx, 2,
           [(str "intent", .s (str "unknown")), (str "fallback", .b true)]⟩] ∧
      ∀ (intent' : Intent) (q' : Str) (ctx' : ConversationContext)
        (t : AgentTask),
        (intent'.intent_type = .TICKET_QUERY ∨
         intent'.intent_type = .KNOWLEDGE_QUERY ∨
         intent'.intent_type = .MIXED_QUERY) →
        t ∈ SupervisorAgent.route_to_agents intent' q' ctx' →
        t.priority = 1) := by
  refine ⟨?_, ?_, ?_⟩
  · intro h
    simp [SupervisorAgent.route_to_agents, h, IntentType.value]
  · intro h
    simp [SupervisorAgent.route_to_agents, h]
  · intro h
    refine ⟨by simp [SupervisorAgent.route_to_agents, h, IntentType.value], ?_⟩
    intro intent' q' ctx' t h' ht
    rcases h' with h' | h' | h'
    · simp [SupervisorAgent.route_to_agents, h'] at ht
      rw [ht]
    · simp [SupervisorAgent.route_to_agents, h'] at ht
      rw [ht]
    · simp [SupervisorAgent.route_to_agents, h'] at ht
      rcases ht with ht | ht <;> rw [ht]

/-- C6 witness: the routing map at one concrete intent per category. -/
theorem C6_routing_map_witness :
    SupervisorAgent.route_to_agents ⟨.MIXED_QUERY, mkRat 9 10, [], none⟩
      (str "q") ⟨str "s", none, [], []⟩ =
      [⟨.TICKET, str "q", ⟨str "s", none, [], []⟩, 1,
         [(str "intent", .s (str "mixed_query")), (str "mixed", .b true)]⟩,
       ⟨.KNOWLEDGE, str "q", ⟨str "s", none, [], []⟩, 1,
         [(str "intent", .s (str "mixed_query")), (str "mixed", .b true)]⟩] ∧
    SupervisorAgent.route_to_agents ⟨.ESCALATION, mkRat 9 10, [], none⟩
      (str "q") ⟨str "s", none, [], []⟩ = [] ∧
    SupervisorAgent.route_to_agents ⟨.UNKNOWN, mkRat 1 10, [], none⟩
      (str "q") ⟨str "s", none, [], []⟩ =
      [⟨.KNOWLEDGE, str "q", ⟨str "s", none, [], []⟩, 2,
         [(str "intent", .s (str "unknown")), (str "fallback", .b true)]⟩] :=
  ⟨(C6_routing_map ⟨.MIXED_QUERY, mkRat 9 10, [], none⟩ (str "q")
      ⟨str "s", none, [], []⟩).1 rfl,
   (C6_routing_map ⟨.ESCALATION, mkRat 9 10, [], none⟩ (str "q")
      ⟨str "s", none, [], []⟩).2.1 rfl,
   ((C6_routing_map ⟨.UNKNOWN, mkRat 1 10, [], none⟩ (str "q")
      ⟨str "s", none, [], []⟩).2.2 rfl).1⟩

/-- C7: ticket-ID normalization is idempotent — in both copies of the
function — and an already-canonical IT-NNN identifier is returned
unchanged. -/
theorem C7_normalize_idem :
    (∀ x : Str, FastIntentClassifier.normalize_ticket_id
        (FastIntentClassifier.normalize_ticket_id x) =
        FastIntentClassifier.normalize_ticket_id x) ∧
    (∀ x : Str, TicketAgent.normalize_ticket_id
        (TicketAgent.normalize_ticket_id x) =
        TicketAgent.normalize_ticket_id x) ∧
    FastIntentClassifier.normalize_ticket_id (str "IT-042") = str "IT-042" := by
  refine ⟨normalize_ticket_id_idem, ?_, by decide⟩
  intro x
  rw [← normalize_bodies_eq]
  exact normalize_ticket_id_idem x

/-- C8: the fast classifier's and the ticket agent's `_normalize_ticket_id`
compute the same function. -/
theorem C8_normalize_agree (x : Str) :
    FastIntentClassifier.normalize_ticket_id x =
      TicketAgent.normalize_ticket_id x := rfl

/-- C9: any query matched by a greeting pattern classifies as GREETING
with confidence exactly 0.95 and empty entities (the classifier takes no
conversation history at all, so the result is independent of it);
routing a GREETING intent yields no tasks; and "Hi, how are you?" yields
that greeting intent and an empty routing list. -/
theorem C9_greeting :
    (∀ q g : Str,
      FastIntentClassifier.check_patterns (toLowerL (stripW q))
        greeting_patterns = some g →
      FastIntentClassifier.classify_intent q =
        some ⟨.GREETING, mkRat 95 100, [],
          some (str "Detected greeting pattern")⟩) ∧
    (∀ (intent : Intent) (q : Str) (ctx : ConversationContext),
      intent.intent_type = .GREETING →
      SupervisorAgent.route_to_agents intent q ctx = []) ∧
    (FastIntentClassifier.classify_intent (str "Hi, how are you?") =
      some ⟨.GREETING, mkRat 95 100, [],
        some (str "Detected greeting pattern")⟩ ∧
     SupervisorAgent.route_to_agents
      ⟨.GREETING, mkRat 95 100, [], some (str "Detected greeting pattern")⟩
      (str "Hi, how are you?") ⟨str "s", none, [], []⟩ = []) := by
  refine ⟨?_, ?_, by decide, ?_⟩
  · intro q g h
    have hne : (toLowerL (stripW q)).isEmpty = false := by
      cases hql : toLowerL (stripW q) with
      | nil =>
        rw [hql] at h
        have hnone : FastIntentClassifier.check_patterns [] greeting_patterns =
            none := by decide
        rw [hnone] at h
        cases h
      | cons a l => rfl
    simp only [FastIntentClassifier.classify_intent, hne, h,
      Bool.false_eq_true, if_false]
  · intro intent q ctx h
    simp [SupervisorAgent.route_to_agents, h]
  · simp [SupervisorAgent.route_to_agents]

/-- C9 witness: the greeting tier applied to "Hi, how are you?". -/
theorem C9_greeting_witness :
    FastIntentClassifier.classify_intent (str "Hi, how are you?") =
      some ⟨.GREETING, mkRat 95 100, [],
        some (str "Detected greeting pattern")⟩ ∧
    SupervisorAgent.route_to_agents
      ⟨.GREETING, mkRat 95 100, [], some (str "Detected greeting pattern")⟩
      (str "Hello there") ⟨str "s", none, [], []⟩ = [] :=
  ⟨C9_greeting.1 (str "Hi, how are you?") (str "greeting") (by decide),
   C9_greeting.2.1
     ⟨.GREETING, mkRat 95 100, [], some (str "Detected greeting pattern")⟩
     (str "Hello there") ⟨str "s", none, [], []⟩ rfl⟩

/-- C10: whenever the fast classifier returns a MIXED_QUERY intent, the
lower-cased query contains the substring "also" (every explicit
dual-request indicator requires it). -/
theorem C10_mixed_requires_also (q : Str) (i : Intent)
    (hc : FastIntentClassifier.classify_intent q = some i)
    (hm : i.intent_type = .MIXED_QUERY) :
    containsSub (str "also") (toLowerL q) = true := by
  apply containsSub_toLowerL_of_strip
  by_cases hne : (toLowerL (stripW q)).isEmpty = true
  · simp only [FastIntentClassifier.classify_intent, hne, if_true] at hc
    cases hc
  · have hne' : (toLowerL (stripW q)).isEmpty = false := by
      cases hbe : (toLowerL (stripW q)).isEmpty
      · rfl
      · exact absurd hbe hne
    simp only [FastIntentClassifier.classify_intent, hne',
      Bool.false_eq_true, if_false] at hc
    cases hg : FastIntentClassifier.check_patterns (toLowerL (stripW q))
        greeting_patterns with
    | some g =>
      simp only [hg] at hc
      injection hc with hic
      rw [← hic] at hm
      simp at hm
    | none =>
    simp only [hg] at hc
    cases he : FastIntentClassifier.check_patterns (toLowerL (stripW q))
        escalation_patterns with
    | some g2 =>
      simp only [he] at hc
      injection hc with hic
      rw [← hic] at hm
      simp at hm
    | none =>
    simp only [he] at hc
    cases hf : FastIntentClassifier.check_patterns (toLowerL (stripW q))
        followup_patterns with
    | some g3 =>
      simp only [hf] at hc
      injection hc with hic
      rw [← hic] at hm
      simp at hm
    | none =>
    simp only [hf] at hc
    by_cases hmix : (FastIntentClassifier.explicit_mixed_indicators
        (toLowerL (stripW q))
        (FastIntentClassifier.check_ticket_patterns (toLowerL (stripW q))).1
        (FastIntentClassifier.check_patterns (toLowerL (stripW q))
          knowledge_patterns)).any id = true
    · exact mixed_indicators_have_also _ _ _ hmix
    · simp only [if_neg hmix] at hc
      cases ht : (FastIntentClassifier.check_ticket_patterns
          (toLowerL (stripW q))).1 with
      | some tmatch =>
        simp only [ht] at hc
        injection hc with hic
        rw [← hic] at hm
        simp at hm
      | none =>
      simp only [ht] at hc
      cases hk : FastIntentClassifier.check_patterns (toLowerL (stripW q))
          knowledge_patterns with
      | some km =>
        simp only [hk] at hc
        injection hc with hic
        rw [← hic] at hm
        simp at hm
      | none =>
        simp only [hk] at hc
        cases hc

/-- C10 witness: a concretely mixed query containing "also". -/
theorem C10_mixed_requires_also_witness :
    containsSub (str "also")
      (toLowerL (str "I have a ticket and also explain what is a probe")) =
      true :=
  C10_mixed_requires_also
    (str "I have a ticket and also explain what is a probe")
    ⟨.MIXED_QUERY, mkRat 90 100, [(str "ticket_id", .s (str "AND"))],
      some (str "Detected explicit mixed query with dual request indicators")⟩
    (by decide) rfl

end ITBot
